import Mathlib

/-!
# Pathfinder front end: the trip-planning session of `App.jsx` and the SOS button

A shallow embedding of the state held by the `App` and `SOSButton` components
(their `useState` cells) and of their event handlers.  Each handler is a function from the state
the handler closure sees to the state after its setters have run, together with
the list of outward effects it issues (HTTP requests, `alert` dialogs).
An `await` splits a handler in two: the part before it, and a resume function
applied to whatever state is current when the response arrives.
-/

namespace Pathfinder

/-! ## Values -/

/-- A JavaScript value held in a numeric slot (coordinates, opening hours):
`null`, `NaN`, an infinity, or a finite number.  The component never does arithmetic on
these values: it stores them, copies them and tests them for truthiness.  A
finite number is represented exactly by an integer: the hour itself in the hour
slots, and in the coordinate slots the coordinate counted in a fixed unit (every
finite double is an integer multiple of 2^-1074; the sample data below count in
millionths of a degree).  Zero is represented by `0`. -/
inductive Num where
  | null
  | nan
  | fin (v : Int)
  | posInf
  | negInf
deriving DecidableEq

/-- JavaScript truthiness of a numeric slot: `null`, `NaN` and `0` are falsy. -/
def Num.truthy : Num → Bool
  | .fin v => v != 0
  | .posInf => true
  | .negInf => true
  | .null => false
  | .nan => false

/-- The argument of the map click handler and the value of the `newPoint` cell. -/
structure LatLng where
  lat : Num
  lng : Num
deriving DecidableEq

/-- One entry of `locations`.  `arrival_time` and `violation` are absent on the
entries the component builds and may be present on the entries of an
optimization response. -/
structure Waypoint where
  id : String
  name : String
  lat : Num
  lng : Num
  open_time : Num
  close_time : Num
  arrival_time : Option String
  violation : Option Bool
deriving DecidableEq

/-- One candidate of the forward search response. -/
structure Place where
  display_name : String
  lat : String
  lon : String
  place_id : Nat
deriving DecidableEq

/-- The value of the `newOpen` / `newClose` cells: the initial number (the
literals 8 and 20, hours of the day; no setter is ever called with a number),
or the text of the input element after an edit (`e.target.value`). -/
inductive HourField where
  | num (n : Fin 24)
  | text (s : String)
deriving DecidableEq

/-- The body of a successful optimization response (`res.data`). -/
structure OptimizeResponse where
  route_shape : List (Num × Num)
  optimized_stops : List Waypoint
deriving DecidableEq

/-- How the `axios.post` of `handleOptimize` settles: the promise rejects
(network error or a non-2xx status), or it resolves with a body, which may be
missing (`res.data` nullish, so that reading `res.data.route_shape` throws). -/
inductive OptimizeOutcome where
  | rejected
  | resolved (data : Option OptimizeResponse)
deriving DecidableEq

/-- Outward effects of the handlers. -/
inductive Effect where
  | reverseGeocode (lat lng : Num)
  | postOptimize (mode : String) (locations : List Waypoint)
  | alert (msg : String)
deriving DecidableEq

/-! ## `parseInt` -/

/-- White space and line terminators skipped by `parseInt` before the number. -/
def isJsWhitespace (c : Char) : Bool :=
  c.toNat ∈ [0x09, 0x0A, 0x0B, 0x0C, 0x0D, 0x20, 0xA0, 0x1680, 0x2000, 0x2001, 0x2002,
    0x2003, 0x2004, 0x2005, 0x2006, 0x2007, 0x2008, 0x2009, 0x200A, 0x2028, 0x2029,
    0x202F, 0x205F, 0x3000, 0xFEFF]

/-- Value of a character as a digit, letters counting from ten. -/
def digitValue (c : Char) : Option Nat :=
  if '0'.toNat ≤ c.toNat ∧ c.toNat ≤ '9'.toNat then some (c.toNat - '0'.toNat)
  else if 'a'.toNat ≤ c.toNat ∧ c.toNat ≤ 'z'.toNat then some (c.toNat - 'a'.toNat + 10)
  else if 'A'.toNat ≤ c.toNat ∧ c.toNat ≤ 'Z'.toNat then some (c.toNat - 'A'.toNat + 10)
  else none

/-- The longest prefix of characters that are digits in the given radix. -/
def takeDigits (radix : Nat) : List Char → List Nat
  | [] => []
  | c :: cs =>
    match digitValue c with
    | some d => if d < radix then d :: takeDigits radix cs else []
    | none => []

/-- The sign read by `parseInt`, and the rest of the text. -/
def readSign : List Char → Bool × List Char
  | '-' :: r => (true, r)
  | '+' :: r => (false, r)
  | cs => (false, cs)

/-- The radix chosen by `parseInt` called without a radix: 16 after `0x` /
`0X`, else 10; and the rest of the text. -/
def readRadix : List Char → Nat × List Char
  | '0' :: 'x' :: r => (16, r)
  | '0' :: 'X' :: r => (16, r)
  | cs => (10, cs)

/-- The number of binary digits of a natural number (one for zero). -/
def bitLength (m : Nat) : Nat := (Nat.toDigits 2 m).length

/-- The Number value of a non-negative integer: the nearest double, a tie going
to the even significand of 53 bits; `none` stands for the overflow to
`Infinity`, from 2^1024 - 2^970 on. -/
def toDouble (m : Nat) : Option Nat :=
  if m < 2 ^ 53 then some m
  else
    let e := bitLength m - 53
    let q := m >>> e
    let r := m - (q <<< e)
    let half := 1 <<< (e - 1)
    let up : Bool := decide (half < r) || (decide (r = half) && decide (q % 2 = 1))
    let v := (if up then q + 1 else q) <<< e
    if v < 1 <<< 1024 then some v else none

/-- The builtin `parseInt` called with one string argument: skip white space,
read a sign, switch to radix 16 after `0x`/`0X`, read the longest digit prefix;
`NaN` when that prefix is empty, else the Number value of the signed integer
read: the nearest double, or an infinity beyond the double range.  (The
licence of the language standard to zero the decimal digits after the
twentieth is not taken.) -/
def parseIntString (s : String) : Num :=
  let signed := readSign (s.toList.dropWhile isJsWhitespace)
  let based := readRadix signed.2
  match takeDigits based.1 based.2 with
  | [] => Num.nan
  | d :: ds =>
    match toDouble ((d :: ds).foldl (fun a x => a * based.1 + x) 0) with
    | some v => Num.fin (if signed.1 then -(v : Int) else (v : Int))
    | none => if signed.1 then Num.negInf else Num.posInf

/-- The call `parseInt(newOpen)`: a number cell is first converted to its
string form, which for an hour of the day parses back to the same number. -/
def parseInt : HourField → Num
  | .num n => .fin (n.val : Int)
  | .text s => parseIntString s

/-! ## State -/

/-- The `useState` cells of `App` (the authentication `session` cell apart:
without a session the component renders the sign-in screen and none of the
handlers below is reachable). -/
structure AppState where
  activeTab : String
  searchQuery : String
  searchResults : List Place
  isSearching : Bool
  locations : List Waypoint
  newPoint : LatLng
  newName : String
  newOpen : HourField
  newClose : HourField
  relocateId : Option String
  route : List (Num × Num)
  loading : Bool
deriving DecidableEq

/-- The initial values passed to `useState`. -/
def AppState.init : AppState where
  activeTab := "daily"
  searchQuery := ""
  searchResults := []
  isSearching := false
  locations := []
  newPoint := { lat := .null, lng := .null }
  newName := ""
  newOpen := .num 8
  newClose := .num 20
  relocateId := none
  route := []
  loading := false

/-- Truthiness of the `relocateId` cell: `null` and the empty string are falsy. -/
def relocating (s : AppState) : Option String :=
  match s.relocateId with
  | some rid => if rid = "" then none else some rid
  | none => none

/-- The draft form is shown, and `confirmAddPoint` proceeds, when `newPoint.lat`
is truthy. -/
def draftPending (s : AppState) : Bool := s.newPoint.lat.truthy

/-! ## Handlers -/

/-- The entry update of the relocate branch:
`loc.id === relocateId ? { ...loc, lat: latlng.lat, lng: latlng.lng } : loc`. -/
def moveTo (rid : String) (latlng : LatLng) (loc : Waypoint) : Waypoint :=
  if loc.id = rid then { loc with lat := latlng.lat, lng := latlng.lng } else loc

/-- The synchronous part of `handleMapClick` (up to the `await`): in relocate
mode the click moves the target and ends the mode; otherwise it opens a draft
with the placeholder name and issues the reverse-geocoding request. -/
def handleMapClick (s : AppState) (latlng : LatLng) : AppState × List Effect :=
  match relocating s with
  | some rid =>
    ({ s with locations := s.locations.map (moveTo rid latlng), relocateId := none }, [])
  | none =>
    ({ s with newPoint := latlng, newName := "Loading address..." },
      [Effect.reverseGeocode latlng.lat latlng.lng])

/-- The object built by `confirmAddPoint`; `now` is the reading of `Date.now()`. -/
def newLocation (now : Nat) (s : AppState) : Waypoint where
  id := toString now
  name := s.newName
  lat := s.newPoint.lat
  lng := s.newPoint.lng
  open_time := parseInt s.newOpen
  close_time := parseInt s.newClose
  arrival_time := none
  violation := none

/-- The handler `confirmAddPoint`, with the clock reading as an argument. -/
def confirmAddPoint (now : Nat) (s : AppState) : AppState :=
  if !s.newPoint.lat.truthy then s
  else { s with
    locations := s.locations ++ [newLocation now s]
    newPoint := { lat := .null, lng := .null } }

/-- The click handler of the trash button of the entry whose id is `id`:
`setLocations(locations.filter(l => l.id !== loc.id))`. -/
def removeLocation (s : AppState) (id : String) : AppState :=
  { s with locations := s.locations.filter (fun l => l.id != id) }

/-- The click handler of the navigation button shown on every entry but the
first, `() => setAsStart(loc.id)`.  `App.jsx` binds no `setAsStart`: it is
neither imported, nor declared at module level, nor declared in `App`.
Calling it raises a `ReferenceError` before any state setter runs. -/
def setAsStartClick (_s : AppState) (_id : String) : Except String AppState :=
  .error "ReferenceError: setAsStart is not defined"

/-- The part of `handleOptimize` before the `await`. -/
def handleOptimize (s : AppState) : AppState × List Effect :=
  if s.locations.length < 2 then
    (s, [Effect.alert "Add at least a start point and one destination!"])
  else
    ({ s with loading := true }, [Effect.postOptimize s.activeTab s.locations])

/-- The part of `handleOptimize` after the `await`, run on the state current
when the request settles: a body installs route and stops; a rejection, or a
missing body, lands in the `catch`; `setLoading(false)` runs in every case. -/
def handleOptimizeResume (s : AppState) : OptimizeOutcome → AppState × List Effect
  | .resolved (some d) =>
    ({ s with route := d.route_shape, locations := d.optimized_stops, loading := false }, [])
  | _ => ({ s with loading := false }, [Effect.alert "Backend error!"])

/-- One whole run of `handleOptimize` with no other event in between: when the
guard lets the request out, the resume part runs on the state the first part
left. -/
def optimize (s : AppState) (o : OptimizeOutcome) : AppState × List Effect :=
  if s.locations.length < 2 then handleOptimize s
  else
    ((handleOptimizeResume (handleOptimize s).1 o).1,
      (handleOptimize s).2 ++ (handleOptimizeResume (handleOptimize s).1 o).2)

/-! ## Sessions -/

/-- User and network events of a planning session. -/
inductive Event where
  | tabDaily
  | tabTourist
  | mapClick (latlng : LatLng)
  | editName (v : String)
  | editOpen (v : String)
  | editClose (v : String)
  | confirmAdd (now : Nat)
  | relocateStartClick
  | removeClick (i : Nat)
  | setAsStartClick (i : Nat)
  | optimizeClick
  | optimizeSettled (o : OptimizeOutcome)
deriving DecidableEq

/-- The state after one event.  Buttons only exist for rendered entries: the
relocate button on the first entry, the set-as-start button on the others, a
trash button on each; the optimize button is disabled while loading or with
fewer than two entries, and a response only arrives for a request in flight
(`loading`).  An exception in a click handler leaves the state as it was. -/
def step (s : AppState) : Event → AppState
  | .tabDaily => { s with activeTab := "daily" }
  | .tabTourist => { s with activeTab := "tourist" }
  | .mapClick latlng => (handleMapClick s latlng).1
  | .editName v => if draftPending s then { s with newName := v } else s
  | .editOpen v => if draftPending s then { s with newOpen := .text v } else s
  | .editClose v => if draftPending s then { s with newClose := .text v } else s
  | .confirmAdd now => if draftPending s then confirmAddPoint now s else s
  | .relocateStartClick =>
    match s.locations with
    | loc :: _ => { s with relocateId := some loc.id }
    | [] => s
  | .removeClick i =>
    match s.locations.get? i with
    | some loc => removeLocation s loc.id
    | none => s
  | .setAsStartClick i =>
    match s.locations.get? i with
    | some loc =>
      if 0 < i then
        match setAsStartClick s loc.id with
        | .ok s2 => s2
        | .error _ => s
      else s
    | none => s
  | .optimizeClick =>
    if s.loading || decide (s.locations.length < 2) then s else (handleOptimize s).1
  | .optimizeSettled o => if s.loading then (handleOptimizeResume s o).1 else s

/-- The state after a sequence of events. -/
def run (s : AppState) (tr : List Event) : AppState := tr.foldl step s

/-- The clock readings taken by the confirmations of a trace. -/
def clockReadings : List Event → List Nat
  | [] => []
  | .confirmAdd now :: tr => now :: clockReadings tr
  | _ :: tr => clockReadings tr

/-- Whether an event is the arrival of an optimization response. -/
def Event.isSettled : Event → Bool
  | .optimizeSettled _ => true
  | _ => false

/-! ## Derived routing fields and sample data -/

/-- No entry carries `arrival_time` or `violation`, and no route is drawn. -/
def derivedCleared (s : AppState) : Bool :=
  s.locations.all (fun w => w.arrival_time.isNone && w.violation.isNone) && s.route.isEmpty

/-- The derived routing fields of an entry. -/
def derivedOf (w : Waypoint) : Option String × Option Bool := (w.arrival_time, w.violation)

/-- A sample optimization response for the two stops added at clock readings
1 and 2: the stops come back in order with arrival times, the second flagged. -/
def sampleResponse : OptimizeResponse where
  route_shape := [(.fin 6927100, .fin 79861200), (.fin 6930000, .fin 79870000)]
  optimized_stops :=
    [{ id := "1", name := "Loading address...", lat := .fin 6927100, lng := .fin 79861200,
       open_time := .fin 8, close_time := .fin 20,
       arrival_time := some "08:00", violation := some false },
     { id := "2", name := "Loading address...", lat := .fin 6930000, lng := .fin 79870000,
       open_time := .fin 8, close_time := .fin 20,
       arrival_time := some "21:15", violation := some true }]

/-- A session that adds two stops by map clicks and has them optimized. -/
def sampleTrace : List Event :=
  [.mapClick { lat := .fin 6927100, lng := .fin 79861200 }, .confirmAdd 1,
   .mapClick { lat := .fin 6930000, lng := .fin 79870000 }, .confirmAdd 2,
   .optimizeClick, .optimizeSettled (.resolved (some sampleResponse))]

/-- The state at the end of the sample session. -/
def plannedState : AppState := run AppState.init sampleTrace

/-! ## Reverse geocoding -/

/-- The `address` object of a reverse-geocoding response, with the six fields
the handler reads; a field may be absent. -/
structure Address where
  amenity : Option String
  shop : Option String
  tourism : Option String
  building : Option String
  road : Option String
  suburb : Option String
deriving DecidableEq

/-- The body of a reverse-geocoding response (`res.data`); `address` may be
absent. -/
structure GeocodeData where
  address : Option Address
deriving DecidableEq

/-- How the `axios.get` of `handleMapClick` settles: it rejects, or it resolves
with a body, which may be missing. -/
inductive GeocodeOutcome where
  | rejected
  | resolved (data : Option GeocodeData)
deriving DecidableEq

/-- The operator `x || rest` on an optional string field: an absent field and
the empty string are falsy. -/
def jsOr (x : Option String) (rest : String) : String :=
  match x with
  | some v => if v = "" then rest else v
  | none => rest

/-- The expression bound to `smartName`:
`addr.amenity || addr.shop || addr.tourism || addr.building || addr.road ||
addr.suburb || "New Stop"`. -/
def smartName (addr : Address) : String :=
  jsOr addr.amenity (jsOr addr.shop (jsOr addr.tourism (jsOr addr.building
    (jsOr addr.road (jsOr addr.suburb "New Stop")))))

/-- The argument of the single `setNewName` call that runs after the `await`
of `handleMapClick`: `smartName` when the body has an address, "New Stop" in
the `else` branch and in the `catch`. -/
def resolvedLabel : GeocodeOutcome → String
  | .resolved (some { address := some addr }) => smartName addr
  | _ => "New Stop"

/-- The part of `handleMapClick` after the `await`, run on the state current
when the request settles.  It tests nothing about that state. -/
def handleMapClickResume (s : AppState) (o : GeocodeOutcome) : AppState :=
  { s with newName := resolvedLabel o }

/-! ## Forward search -/

/-- The `length` of a JavaScript string: UTF-16 code units, two for a
character beyond the basic plane. -/
def jsLength (s : String) : Nat :=
  (s.toList.map (fun c => if c.toNat < 0x10000 then 1 else 2)).sum

/-- How the `axios.get` of the search effect settles: it rejects, or it
resolves with the list of candidates. -/
inductive SearchOutcome where
  | rejected
  | resolved (data : List Place)
deriving DecidableEq

/-- The expression `display_name.split(',')[0]`. -/
def firstSegment (s : String) : String :=
  String.mk (s.toList.takeWhile (fun c => c != ','))

/-- The handler `selectSearchResult`; the builtin `parseFloat` is a parameter. -/
def selectSearchResult (parseFloat : String → Num) (s : AppState) (place : Place) :
    AppState :=
  { s with
    newPoint := { lat := parseFloat place.lat, lng := parseFloat place.lon }
    newName := firstSegment place.display_name
    searchResults := []
    searchQuery := "" }

/-- The part of the debounce callback after its `await`, run on the state
current when the request settles. -/
def searchResume (s : AppState) : SearchOutcome → AppState
  | .resolved data => { s with searchResults := data, isSearching := false }
  | .rejected => { s with isSearching := false }

/-- The component state together with what is pending outside it: the debounce
timer (with the query its callback closes over), the search requests sent and
not yet answered, the log of every search request sent, and the positions of
the reverse-geocoding requests sent and not yet answered. -/
structure Session where
  app : AppState
  searchTimer : Option String
  searchInFlight : List String
  searchIssued : List String
  geocodeInFlight : List LatLng
deriving DecidableEq

/-- The session after mount: the search effect has run once on the empty
query and set no timer. -/
def Session.init : Session where
  app := AppState.init
  searchTimer := none
  searchInFlight := []
  searchIssued := []
  geocodeInFlight := []

/-- The search effect, run after a render in which `searchQuery` changed: the
cleanup of the previous run clears its timer; a query shorter than three
empties the candidates and returns; otherwise a new 600 ms timer is set. -/
def searchEffect (s : Session) : Session :=
  if jsLength s.app.searchQuery < 3 then
    { s with app := { s.app with searchResults := [] }, searchTimer := none }
  else
    { s with searchTimer := some s.app.searchQuery }

/-- The `onChange` of the search box: `setSearchQuery(v)`, followed by the
search effect when the value differs from the old one. -/
def setQuery (s : Session) (v : String) : Session :=
  if v = s.app.searchQuery then s
  else searchEffect { s with app := { s.app with searchQuery := v } }

/-- The first part of the debounce callback, run when the timer fires:
`setIsSearching(true)` and the request for the query of the closure. -/
def debounceFire (s : Session) : Session :=
  match s.searchTimer with
  | some q =>
    { s with
      app := { s.app with isSearching := true }
      searchTimer := none
      searchInFlight := s.searchInFlight ++ [q]
      searchIssued := s.searchIssued ++ [q] }
  | none => s

/-- The positions of the reverse-geocoding requests among some effects. -/
def geocodeRequests : List Effect → List LatLng
  | [] => []
  | .reverseGeocode lat lng :: es => { lat := lat, lng := lng } :: geocodeRequests es
  | _ :: es => geocodeRequests es

/-- Events of a session with its network traffic: the events of `Event`, edits
of the search box, the debounce timer firing, a search response for a query in
flight, the choice of a listed candidate, and a reverse-geocoding response for
a position in flight. -/
inductive SessionEvent where
  | ui (e : Event)
  | queryEdit (v : String)
  | debounceExpiry
  | searchSettled (q : String) (o : SearchOutcome)
  | selectResult (i : Nat)
  | geocodeSettled (p : LatLng) (o : GeocodeOutcome)
deriving DecidableEq

/-- The session after one event. -/
def sessionStep (parseFloat : String → Num) (s : Session) : SessionEvent → Session
  | .ui (.mapClick latlng) =>
    { s with
      app := (handleMapClick s.app latlng).1
      geocodeInFlight := s.geocodeInFlight ++ geocodeRequests (handleMapClick s.app latlng).2 }
  | .ui e => { s with app := step s.app e }
  | .queryEdit v => setQuery s v
  | .debounceExpiry => debounceFire s
  | .searchSettled q o =>
    if q ∈ s.searchInFlight then
      { s with app := searchResume s.app o, searchInFlight := s.searchInFlight.erase q }
    else s
  | .selectResult i =>
    match s.app.searchResults.get? i with
    | some place =>
      if s.app.searchQuery = "" then { s with app := selectSearchResult parseFloat s.app place }
      else searchEffect { s with app := selectSearchResult parseFloat s.app place }
    | none => s
  | .geocodeSettled p o =>
    if p ∈ s.geocodeInFlight then
      { s with app := handleMapClickResume s.app o, geocodeInFlight := s.geocodeInFlight.erase p }
    else s

/-- The session after a sequence of events. -/
def sessionRun (parseFloat : String → Num) (s : Session) (tr : List SessionEvent) : Session :=
  tr.foldl (sessionStep parseFloat) s

/-- A stand-in for `parseFloat` on the coordinates of the sample data, in
millionths of a degree. -/
def sampleParseFloat (s : String) : Num :=
  if s = "6.9271" then .fin 6927100
  else if s = "79.8612" then .fin 79861200
  else .nan

/-- Two sample candidates. -/
def placeFort : Place :=
  { display_name := "Colombo Fort, Colombo, Sri Lanka", lat := "6.9271", lon := "79.8612",
    place_id := 1 }

/-- The second sample candidate. -/
def placeColpetty : Place :=
  { display_name := "Colpetty, Colombo, Sri Lanka", lat := "6.9271", lon := "79.8612",
    place_id := 2 }

/-- A sample address with a shop and a road. -/
def sampleAddress : Address :=
  { amenity := none, shop := some "ABC Mart", tourism := none, building := none,
    road := some "Main St", suburb := none }

/-! ## The SOS button (`SOSButton.jsx`) -/

/-- One provider of the ranking response. -/
structure Provider where
  name : String
  distance_km : Num
  rating : Num
  user_ratings_total : Num
  address : String
  topsis_score : Num
deriving DecidableEq

/-- The `useState` cells of `SOSButton`. -/
structure SosState where
  loading : Bool
  isModalOpen : Bool
  providers : List Provider
  errorMsg : String
deriving DecidableEq

/-- The initial values passed to `useState`. -/
def SosState.init : SosState where
  loading := false
  isModalOpen := false
  providers := []
  errorMsg := ""

/-- How `getCurrentPosition` answers: the success callback with a position, or
the error callback. -/
inductive PositionOutcome where
  | acquired (lat lng : Num)
  | failed
deriving DecidableEq

/-- How the `axios.get` of the success callback settles: it rejects, or it
resolves with a body whose `providers` list may be missing (then reading its
`length` throws inside the `try`). -/
inductive SosOutcome where
  | rejected
  | resolved (providers : Option (List Provider))
deriving DecidableEq

/-- The helper `showError`. -/
def showError (s : SosState) (msg : String) : SosState :=
  { s with errorMsg := msg, isModalOpen := true, loading := false }

/-- The synchronous part of `handleSOS`; `supported` is the truthiness of
`navigator.geolocation`.  The second component tells whether the position
request went out. -/
def handleSOS (supported : Bool) (s : SosState) : SosState × Bool :=
  if !supported then (showError s "Geolocation is not supported by your browser.", false)
  else ({ s with loading := true, providers := [], errorMsg := "" }, true)

/-- The error callback of `getCurrentPosition`. -/
def positionDenied (s : SosState) : SosState :=
  { showError s "Please allow location access in your browser to use the SOS feature."
    with loading := false }

/-- The success callback of `getCurrentPosition` from its `await` on, run on
the state current when the request settles: an empty list shows the error and
returns; a non-empty list stores its first three entries and opens the modal;
a rejection or a missing list lands in the `catch`; the final
`setLoading(false)` runs unless the handler returned early. -/
def sosResume (s : SosState) : SosOutcome → SosState
  | .resolved (some ps) =>
    if ps.length = 0 then showError s "No service stations found within a 5km radius."
    else { s with providers := ps.take 3, isModalOpen := true, loading := false }
  | _ =>
    { showError s "SOS Service Offline. Please check if Port 8001 is running."
      with loading := false }

/-- One whole run of the SOS flow with no other event in between. -/
def sosFlow (supported : Bool) (pos : PositionOutcome) (o : SosOutcome) (s : SosState) :
    SosState :=
  if (handleSOS supported s).2 then
    match pos with
    | .acquired _ _ => sosResume (handleSOS supported s).1 o
    | .failed => positionDenied (handleSOS supported s).1
  else (handleSOS supported s).1

/-- The error block of the modal is rendered: `isModalOpen` and `errorMsg`
truthy. -/
def showsError (s : SosState) : Bool := s.isModalOpen && s.errorMsg != ""

/-- The success block of the modal is rendered: `isModalOpen`, `!errorMsg` and
`providers.length > 0`. -/
def showsSuccess (s : SosState) : Bool :=
  s.isModalOpen && s.errorMsg == "" && decide (0 < s.providers.length)

/-- Four sample providers, in the order of the backend. -/
def sampleProviders : List Provider :=
  [{ name := "A", distance_km := .fin 1, rating := .fin 5, user_ratings_total := .fin 10,
     address := "a", topsis_score := .fin 842 },
   { name := "B", distance_km := .fin 2, rating := .fin 4, user_ratings_total := .fin 20,
     address := "b", topsis_score := .fin 700 },
   { name := "C", distance_km := .fin 3, rating := .fin 4, user_ratings_total := .fin 5,
     address := "c", topsis_score := .fin 650 },
   { name := "D", distance_km := .fin 4, rating := .fin 3, user_ratings_total := .fin 7,
     address := "d", topsis_score := .fin 500 }]

/-! ## Sample interleavings -/

/-- Invariant of the debounce timer and of the request log. -/
def SearchInv (s : Session) : Prop :=
  (∀ q, s.searchTimer = some q → q = s.app.searchQuery ∧ 3 ≤ jsLength q) ∧
  (∀ q ∈ s.searchIssued, 3 ≤ jsLength q)

/-- A session that searches "col", then "colo", and receives the answer for "colo"
before the answer for "col". -/
def staleSearchTrace : List SessionEvent :=
  [.queryEdit "col", .debounceExpiry, .queryEdit "colo", .debounceExpiry,
   .searchSettled "colo" (.resolved [placeFort]),
   .searchSettled "col" (.resolved [placeColpetty])]

/-- A session that searches "col", shortens the query to "co" and then receives the
answer for "col". -/
def shortQueryTrace : List SessionEvent :=
  [.queryEdit "col", .debounceExpiry, .queryEdit "co",
   .searchSettled "col" (.resolved [placeColpetty])]

/-- A first sample position. -/
def pointA : LatLng := { lat := .fin 6927100, lng := .fin 79861200 }

/-- A second sample position. -/
def pointB : LatLng := { lat := .fin 6930000, lng := .fin 79870000 }

/-- The reverse-geocoding answer carrying the sample address. -/
def sampleAnswer : GeocodeOutcome := .resolved (some { address := some sampleAddress })

/-- A session in which a first stop exists, a second draft is opened, named
"Cafe" and given the hours "9" and "17", and a relocation of the start is
requested before the draft is confirmed. -/
def relocateWhileDraftTrace : List Event :=
  [.mapClick { lat := .fin 6927100, lng := .fin 79861200 }, .confirmAdd 1,
   .mapClick { lat := .fin 6930000, lng := .fin 79870000 }, .editName "Cafe",
   .editOpen "9", .editClose "17", .relocateStartClick]

end Pathfinder

/-! # Theorems -/

namespace Pathfinder

/-! ## Store mutations and the derived routing fields -/

/-- C1 (counterexample): after a successful optimization has set arrival times,
a violation flag and a route, each of add, remove and relocate leaves them in
place, so the derived routing fields are not cleared. -/
theorem mutation_keeps_stale_fields :
    derivedCleared plannedState = false ∧
    derivedCleared
      (confirmAddPoint 3 { plannedState with newPoint := { lat := .fin 5, lng := .fin 6 } })
      = false ∧
    derivedCleared (removeLocation plannedState "1") = false ∧
    relocating { plannedState with relocateId := some "1" } = some "1" ∧
    derivedCleared
      (handleMapClick { plannedState with relocateId := some "1" }
        { lat := .fin 5, lng := .fin 6 }).1 = false ∧
    (removeLocation plannedState "1").locations.map derivedOf = [(some "21:15", some true)] ∧
    (removeLocation plannedState "1").route = sampleResponse.route_shape := by
  decide

/-- C1 (amended): add, remove and relocate leave the route geometry as it was
and leave `arrival_time` and `violation` of every entry they keep as they were;
the entry appended by an add has neither field set. -/
theorem mutation_preserves_derived (s : AppState) (now : Nat) (id : String)
    (latlng : LatLng) :
    (confirmAddPoint now s).route = s.route ∧
    (removeLocation s id).route = s.route ∧
    (handleMapClick s latlng).1.route = s.route ∧
    ((confirmAddPoint now s).locations = s.locations ∨
      ∃ w, (confirmAddPoint now s).locations = s.locations ++ [w] ∧
        w.arrival_time = none ∧ w.violation = none) ∧
    (removeLocation s id).locations.Sublist s.locations ∧
    (handleMapClick s latlng).1.locations.map derivedOf = s.locations.map derivedOf := by
  refine ⟨?_, rfl, ?_, ?_, ?_, ?_⟩
  · unfold confirmAddPoint
    split <;> rfl
  · unfold handleMapClick
    split <;> rfl
  · unfold confirmAddPoint
    split
    · exact Or.inl rfl
    · exact Or.inr ⟨newLocation now s, rfl, rfl, rfl⟩
  · exact List.filter_sublist _
  · unfold handleMapClick
    split
    · simp only [List.map_map]
      apply List.map_congr_left
      intro w _
      simp only [Function.comp, moveTo, derivedOf]
      split <;> rfl
    · rfl

/-! ## Promotion to start -/

/-- C2 (the code at the failing input): with two stops in the list, the
set-as-start button of the second raises a `ReferenceError`, and the list stays
in its old order instead of starting with the second stop. -/
theorem setAsStart_click_raises :
    plannedState.locations.map (fun w => w.id) = ["1", "2"] ∧
    setAsStartClick plannedState "2" = .error "ReferenceError: setAsStart is not defined" ∧
    (step plannedState (.setAsStartClick 1)).locations.map (fun w => w.id) = ["1", "2"] :=
  ⟨by decide, rfl, by decide⟩

/-! ## Identifiers -/

/-- The character of a decimal digit has the code of that digit above the code of the
zero character. -/
theorem digitChar_toNat (k : Nat) (hk : k < 10) : (Nat.digitChar k).toNat - 48 = k := by
  interval_cases k <;> rfl

/-- The digits written by the decimal printer, read back most significant first, give
the number printed. -/
theorem toDigitsCore_value (fuel : Nat) : ∀ (n : Nat) (acc : List Char), n < fuel →
    ∃ ds : List Char, Nat.toDigitsCore 10 fuel n acc = ds ++ acc ∧
      ds.foldl (fun a c => a * 10 + (c.toNat - 48)) 0 = n := by
  induction fuel with
  | zero => intro n acc h; omega
  | succ f ih =>
    intro n acc h
    simp only [Nat.toDigitsCore]
    split
    · rename_i h0
      refine ⟨[Nat.digitChar (n % 10)], rfl, ?_⟩
      simp only [List.foldl]
      rw [digitChar_toNat _ (Nat.mod_lt _ (by decide))]
      omega
    · rename_i h0
      obtain ⟨ds, h1, h2⟩ := ih (n / 10) (Nat.digitChar (n % 10) :: acc) (by omega)
      refine ⟨ds ++ [Nat.digitChar (n % 10)], ?_, ?_⟩
      · rw [h1]; simp
      · rw [List.foldl_append, h2]
        simp only [List.foldl]
        rw [digitChar_toNat _ (Nat.mod_lt _ (by decide))]
        omega

/-- Distinct clock readings print as distinct strings. -/
theorem toString_nat_injective (a b : Nat) (h : toString a = toString b) : a = b := by
  have h1 : Nat.toDigits 10 a = Nat.toDigits 10 b := by
    have h2 : (Nat.toDigits 10 a).asString = (Nat.toDigits 10 b).asString := h
    exact congrArg String.data h2
  obtain ⟨da, ha1, ha2⟩ := toDigitsCore_value (a + 1) a [] (by omega)
  obtain ⟨db, hb1, hb2⟩ := toDigitsCore_value (b + 1) b [] (by omega)
  simp only [Nat.toDigits] at h1
  rw [ha1, hb1] at h1
  simp only [List.append_nil] at h1
  rw [← ha2, ← hb2, h1]


/-- Moving an entry keeps its id. -/
theorem moveTo_id (rid : String) (latlng : LatLng) (w : Waypoint) :
    (moveTo rid latlng w).id = w.id := by
  unfold moveTo
  split <;> rfl

/-- A map click keeps the list of ids, in either mode. -/
theorem handleMapClick_ids (s : AppState) (latlng : LatLng) :
    (handleMapClick s latlng).1.locations.map (fun w => w.id) =
      s.locations.map (fun w => w.id) := by
  unfold handleMapClick
  split
  · simp only [List.map_map]
    apply List.map_congr_left
    intro w _
    exact moveTo_id _ _ w
  · rfl

/-- An event other than an optimization response either keeps a sublist of the ids or is
a confirmation that appends the printed clock reading. -/
theorem step_ids (s : AppState) (e : Event) (he : e.isSettled = false) :
    ((step s e).locations.map (fun w => w.id)).Sublist (s.locations.map (fun w => w.id)) ∨
    ∃ now, e = .confirmAdd now ∧
      (step s e).locations.map (fun w => w.id) =
        s.locations.map (fun w => w.id) ++ [toString now] := by
  cases e with
  | tabDaily => exact Or.inl (List.Sublist.refl _)
  | tabTourist => exact Or.inl (List.Sublist.refl _)
  | mapClick latlng =>
    left
    simp only [step]
    rw [handleMapClick_ids]
  | editName v =>
    left
    simp only [step]
    split <;> exact List.Sublist.refl _
  | editOpen v =>
    left
    simp only [step]
    split <;> exact List.Sublist.refl _
  | editClose v =>
    left
    simp only [step]
    split <;> exact List.Sublist.refl _
  | confirmAdd now =>
    simp only [step, confirmAddPoint]
    split
    · split
      · exact Or.inl (List.Sublist.refl _)
      · right
        exact ⟨now, rfl, by simp [newLocation]⟩
    · exact Or.inl (List.Sublist.refl _)
  | relocateStartClick =>
    left
    simp only [step]
    split <;> exact List.Sublist.refl _
  | removeClick i =>
    left
    simp only [step]
    split
    · exact (List.filter_sublist _).map _
    · exact List.Sublist.refl _
  | setAsStartClick i =>
    left
    simp only [step, setAsStartClick]
    split
    · split <;> exact List.Sublist.refl _
    · exact List.Sublist.refl _
  | optimizeClick =>
    left
    simp only [step, handleOptimize]
    split
    · exact List.Sublist.refl _
    · split <;> exact List.Sublist.refl _
  | optimizeSettled o => simp [Event.isSettled] at he

/-- Only confirmations take clock readings. -/
theorem clockReadings_cons_other (e : Event) (tr : List Event)
    (h : ∀ now, e ≠ .confirmAdd now) : clockReadings (e :: tr) = clockReadings tr := by
  cases e <;> simp_all [clockReadings]

/-- Invariant of a run without optimization responses: the ids stay pairwise distinct
and each is the print of a clock reading already used, as long as the readings still to
come are new. -/
theorem run_ids_nodup : ∀ (tr : List Event) (s : AppState) (used : List Nat),
    (s.locations.map (fun w => w.id)).Nodup →
    (∀ x ∈ s.locations.map (fun w => w.id), ∃ t ∈ used, x = toString t) →
    (∀ e ∈ tr, e.isSettled = false) →
    (used ++ clockReadings tr).Nodup →
    ((run s tr).locations.map (fun w => w.id)).Nodup := by
  intro tr
  induction tr with
  | nil => intro s used h _ _ _; exact h
  | cons e tr ih =>
    intro s used hnd hused hloc hclk
    have he : e.isSettled = false := hloc e (List.mem_cons_self _ _)
    have hrest : ∀ x ∈ tr, x.isSettled = false := fun x hx => hloc x (List.mem_cons_of_mem _ hx)
    show ((run (step s e) tr).locations.map (fun w => w.id)).Nodup
    rcases step_ids s e he with hsub | ⟨now, rfl, hids⟩
    · by_cases hc : ∃ now, e = .confirmAdd now
      · obtain ⟨now, rfl⟩ := hc
        apply ih (step s (.confirmAdd now)) (used ++ [now]) (hnd.sublist hsub)
        · intro x hx
          obtain ⟨t, ht, hxt⟩ := hused x (hsub.subset hx)
          exact ⟨t, List.mem_append_left _ ht, hxt⟩
        · exact hrest
        · simpa [clockReadings] using hclk
      · have hc2 : ∀ now, e ≠ .confirmAdd now := fun now h => hc ⟨now, h⟩
        rw [clockReadings_cons_other e tr hc2] at hclk
        apply ih (step s e) used (hnd.sublist hsub)
        · intro x hx
          exact hused x (hsub.subset hx)
        · exact hrest
        · exact hclk
    · have hclk2 : (used ++ now :: clockReadings tr).Nodup := by
        simpa [clockReadings] using hclk
      have hfresh : now ∉ used := by
        intro hmem
        have := List.nodup_append.1 hclk2
        exact this.2.2 hmem (List.mem_cons_self _ _)
      apply ih (step s (.confirmAdd now)) (used ++ [now])
      · rw [hids]
        apply List.Nodup.append hnd (List.nodup_singleton _)
        intro x hx hx2
        obtain ⟨t, ht, hxt⟩ := hused x hx
        have hx3 : x = toString now := by simpa using hx2
        have : t = now := toString_nat_injective t now (by rw [← hxt, hx3])
        exact hfresh (this ▸ ht)
      · intro x hx
        rw [hids] at hx
        rcases List.mem_append.1 hx with h1 | h1
        · obtain ⟨t, ht, hxt⟩ := hused x h1
          exact ⟨t, List.mem_append_left _ ht, hxt⟩
        · exact ⟨now, by simp, by simpa using h1⟩
      · exact hrest
      · simpa using hclk2

/-- C3 (counterexample): two confirmations that read the same clock value give
two entries with the same id. -/
theorem duplicate_ids_at_equal_clock :
    (run AppState.init
      [.mapClick { lat := .fin 6927100, lng := .fin 79861200 }, .confirmAdd 1700000000000,
       .mapClick { lat := .fin 6930000, lng := .fin 79870000 }, .confirmAdd 1700000000000]
      ).locations.map (fun w => w.id) = ["1700000000000", "1700000000000"] ∧
    ¬ ((run AppState.init
      [.mapClick { lat := .fin 6927100, lng := .fin 79861200 }, .confirmAdd 1700000000000,
       .mapClick { lat := .fin 6930000, lng := .fin 79870000 }, .confirmAdd 1700000000000]
      ).locations.map (fun w => w.id)).Nodup := by
  decide

/-- C3 (amended): in a session started from the empty store in which no
optimization response is applied, if the clock readings taken by the
confirmations are pairwise distinct then the ids in the store are pairwise
distinct. -/
theorem ids_distinct_of_distinct_clock (tr : List Event)
    (hlocal : ∀ e ∈ tr, e.isSettled = false) (hclock : (clockReadings tr).Nodup) :
    ((run AppState.init tr).locations.map (fun w => w.id)).Nodup :=
  run_ids_nodup tr AppState.init [] List.nodup_nil (fun _ hx => by simp [AppState.init] at hx)
    hlocal (by simpa using hclock)

/-- Witness for C3: two stops added at the readings 1 and 2. -/
theorem ids_distinct_of_distinct_clock_witness :
    (∀ e ∈ sampleTrace.take 4, e.isSettled = false) ∧
    (clockReadings (sampleTrace.take 4)).Nodup ∧
    (run AppState.init (sampleTrace.take 4)).locations.map (fun w => w.id) = ["1", "2"] ∧
    ((run AppState.init (sampleTrace.take 4)).locations.map (fun w => w.id)).Nodup :=
  ⟨by decide, by decide, by decide,
    ids_distinct_of_distinct_clock (sampleTrace.take 4) (by decide) (by decide)⟩

/-! ## Adding, relocating, removing -/

/-- A decimal digit character is no white space, no sign and no radix letter, and has
its digit as value. -/
theorem digitChar_facts (k : Nat) (hk : k < 10) :
    isJsWhitespace (Nat.digitChar k) = false ∧
    digitValue (Nat.digitChar k) = some k ∧
    (∀ cs, readSign (Nat.digitChar k :: cs) = (false, Nat.digitChar k :: cs)) ∧
    Nat.digitChar k ≠ 'x' ∧ Nat.digitChar k ≠ 'X' := by
  interval_cases k <;> refine ⟨by decide, by decide, fun _ => rfl, by decide, by decide⟩

/-- A text of decimal digits is read in radix 10, whole. -/
theorem readRadix_digits (cs : List Char)
    (h : ∀ c ∈ cs, ∃ k, k < 10 ∧ c = Nat.digitChar k) : readRadix cs = (10, cs) := by
  match cs with
  | [] => rfl
  | [c] =>
    obtain ⟨k, hk, rfl⟩ := h c (by simp)
    interval_cases k <;> rfl
  | c :: c2 :: r =>
    obtain ⟨k2, hk2, rfl⟩ := h c2 (by simp)
    have hx := (digitChar_facts k2 hk2).2.2.2
    unfold readRadix
    split
    · rename_i heq
      simp only [List.cons.injEq] at heq
      exact absurd heq.2.1 hx.1
    · rename_i heq
      simp only [List.cons.injEq] at heq
      exact absurd heq.2.1 hx.2
    · rfl

/-- The digit prefix of a text of decimal digits is the whole text. -/
theorem takeDigits_digits : ∀ (cs : List Char),
    (∀ c ∈ cs, ∃ k, k < 10 ∧ c = Nat.digitChar k) →
    takeDigits 10 cs = cs.map (fun c => c.toNat - 48) := by
  intro cs
  induction cs with
  | nil => intro _; rfl
  | cons c cs ih =>
    intro h
    obtain ⟨k, hk, rfl⟩ := h c (by simp)
    have ih2 := ih (fun c hc => h c (List.mem_cons_of_mem _ hc))
    simp only [takeDigits, (digitChar_facts k hk).2.1, hk, if_true, ih2, List.map_cons,
      digitChar_toNat k hk]

/-- The decimal printer writes decimal digit characters only. -/
theorem toDigitsCore_chars (fuel : Nat) : ∀ (n : Nat) (acc : List Char),
    (∀ c ∈ acc, ∃ k, k < 10 ∧ c = Nat.digitChar k) →
    (∀ c ∈ Nat.toDigitsCore 10 fuel n acc, ∃ k, k < 10 ∧ c = Nat.digitChar k) := by
  induction fuel with
  | zero => intro n acc h; simpa [Nat.toDigitsCore] using h
  | succ f ih =>
    intro n acc h
    have hd : ∀ c ∈ Nat.digitChar (n % 10) :: acc, ∃ k, k < 10 ∧ c = Nat.digitChar k := by
      intro c hc
      rcases List.mem_cons.1 hc with h1 | h1
      · exact ⟨n % 10, Nat.mod_lt _ (by decide), h1⟩
      · exact h c h1
    simp only [Nat.toDigitsCore]
    split
    · exact hd
    · exact ih _ _ hd

/-- Reading the decimal print of an integer below 2^53 with `parseInt` gives that integer. -/
theorem parseIntString_toString (n : Nat) (hn : n < 2 ^ 53) :
    parseIntString (toString n) = .fin (n : Int) := by
  obtain ⟨ds, h1, h2⟩ := toDigitsCore_value (n + 1) n [] (by omega)
  have hchars := toDigitsCore_chars (n + 1) n [] (by simp)
  rw [h1, List.append_nil] at hchars
  have hlist : (toString n).toList = ds := by
    show Nat.toDigits 10 n = ds
    simp only [Nat.toDigits, h1, List.append_nil]
  have hne : ds ≠ [] := by
    intro h0
    have hcore : Nat.toDigitsCore 10 (n + 1) n [] = [] := by rw [h1, h0]; rfl
    simp only [Nat.toDigitsCore] at hcore
    split at hcore
    · exact absurd hcore (by simp)
    · obtain ⟨ds2, h3, _⟩ := toDigitsCore_value n (n / 10) [Nat.digitChar (n % 10)] (by omega)
      rw [h3] at hcore
      simp at hcore
  obtain ⟨c, cs, rfl⟩ := List.exists_cons_of_ne_nil hne
  obtain ⟨k, hk, rfl⟩ := hchars c (by simp)
  have hf := digitChar_facts k hk
  have hdrop : (Nat.digitChar k :: cs).dropWhile isJsWhitespace = Nat.digitChar k :: cs := by
    simp [List.dropWhile, hf.1]
  have hval : (takeDigits 10 (Nat.digitChar k :: cs)).foldl (fun a x => a * 10 + x) 0 = n := by
    rw [takeDigits_digits _ hchars, List.foldl_map]
    exact h2
  have htd : takeDigits 10 (Nat.digitChar k :: cs) =
      k :: cs.map (fun c => c.toNat - 48) := by
    rw [takeDigits_digits _ hchars, List.map_cons, digitChar_toNat k hk]
  unfold parseIntString
  simp only [hlist, hdrop, hf.2.2.1, readRadix_digits _ hchars]
  rw [htd] at hval
  simp only [htd, hval, toDouble, hn, if_true]
  simp

/-- C4 (counterexample): a draft confirmed after a relocation of the start was
requested is appended and discarded, but the relocate target stays set: the
controller is in relocate mode, not back in Idle. -/
theorem confirm_keeps_relocate_target :
    draftPending (run AppState.init relocateWhileDraftTrace) = true ∧
    (confirmAddPoint 2 (run AppState.init relocateWhileDraftTrace)).locations.map
      (fun w => w.id) = ["1", "2"] ∧
    draftPending (confirmAddPoint 2 (run AppState.init relocateWhileDraftTrace)) = false ∧
    relocating (confirmAddPoint 2 (run AppState.init relocateWhileDraftTrace)) = some "1" ∧
    relocating (confirmAddPoint 2 (run AppState.init relocateWhileDraftTrace)) ≠ none := by
  decide

/-- C4 (amended): confirming a pending draft appends exactly one entry, built
from the draft name, position and hours with the printed clock reading as id;
the hours are the hour cells as `parseInt` reads them, which is the number of
an untouched cell and the integer of a decimal text below 2^53; the old entries
keep their indices; the draft position is reset to none; the relocate target
and every other cell stay as they were, so the controller is Idle afterwards
exactly when no relocation is pending. -/
theorem confirmAddPoint_appends (now : Nat) (s : AppState) (h : draftPending s = true) :
    (confirmAddPoint now s).locations =
      s.locations ++
        [{ id := toString now, name := s.newName, lat := s.newPoint.lat, lng := s.newPoint.lng,
           open_time := parseInt s.newOpen, close_time := parseInt s.newClose,
           arrival_time := none, violation := none }] ∧
    (∀ hour : Fin 24, parseInt (.num hour) = .fin (hour.val : Int)) ∧
    (∀ n : Nat, n < 2 ^ 53 → parseInt (.text (toString n)) = .fin (n : Int)) ∧
    (confirmAddPoint now s).locations.length = s.locations.length + 1 ∧
    (∀ i, i < s.locations.length →
      (confirmAddPoint now s).locations.get? i = s.locations.get? i) ∧
    (confirmAddPoint now s).newPoint = { lat := .null, lng := .null } ∧
    draftPending (confirmAddPoint now s) = false ∧
    relocating (confirmAddPoint now s) = relocating s ∧
    confirmAddPoint now s =
      { s with locations := (confirmAddPoint now s).locations,
               newPoint := { lat := .null, lng := .null } } := by
  have hs : confirmAddPoint now s =
      { s with locations := s.locations ++ [newLocation now s],
               newPoint := { lat := .null, lng := .null } } := by
    unfold draftPending at h
    simp [confirmAddPoint, h]
  rw [hs]
  refine ⟨rfl, fun _ => rfl, fun n hn => parseIntString_toString n hn, by simp, ?_, rfl, rfl,
    rfl, rfl⟩
  intro i hi
  simp [List.getElem?_append_left hi]

/-- Witness for C4: with one stop in the store, a second draft named "Cafe" with
the hours typed as "9" and "17" is confirmed at reading 2; the first stop keeps
its place and the new one carries the name and the hours 9 and 17. -/
theorem confirmAddPoint_appends_witness :
    draftPending (run AppState.init relocateWhileDraftTrace) = true ∧
    (run AppState.init relocateWhileDraftTrace).locations.length = 1 ∧
    (confirmAddPoint 2 (run AppState.init relocateWhileDraftTrace)).locations =
      [{ id := "1", name := "Loading address...", lat := .fin 6927100, lng := .fin 79861200,
         open_time := .fin 8, close_time := .fin 20, arrival_time := none, violation := none },
       { id := "2", name := "Cafe", lat := .fin 6930000, lng := .fin 79870000,
         open_time := .fin 9, close_time := .fin 17, arrival_time := none,
         violation := none }] :=
  ⟨by decide, by decide,
    (confirmAddPoint_appends 2 (run AppState.init relocateWhileDraftTrace) (by decide)).1.trans
      (by decide)⟩

/-- C5: in relocate mode a map click rewrites only the latitude and longitude
of the entries whose id is the target, in place; length, order, ids, names and
the other entries stay; with no such entry the list is unchanged; the relocate
target is reset to none; no draft is opened and no request is issued. -/
theorem relocate_click (s : AppState) (rid : String) (latlng : LatLng)
    (h : relocating s = some rid) :
    handleMapClick s latlng =
      ({ s with locations := s.locations.map (moveTo rid latlng), relocateId := none }, []) ∧
    (handleMapClick s latlng).1.locations.length = s.locations.length ∧
    (∀ i w, s.locations.get? i = some w →
      (handleMapClick s latlng).1.locations.get? i =
        some (if w.id = rid then { w with lat := latlng.lat, lng := latlng.lng } else w)) ∧
    (handleMapClick s latlng).1.locations.map (fun w => (w.id, w.name)) =
      s.locations.map (fun w => (w.id, w.name)) ∧
    ((∀ w ∈ s.locations, w.id ≠ rid) → (handleMapClick s latlng).1.locations = s.locations) ∧
    (handleMapClick s latlng).1.relocateId = none ∧
    relocating (handleMapClick s latlng).1 = none ∧
    (handleMapClick s latlng).1.newPoint = s.newPoint ∧
    (handleMapClick s latlng).1.newName = s.newName ∧
    (handleMapClick s latlng).2 = [] := by
  have hs : handleMapClick s latlng =
      ({ s with locations := s.locations.map (moveTo rid latlng), relocateId := none }, []) := by
    simp [handleMapClick, h]
  rw [hs]
  refine ⟨rfl, by simp, ?_, ?_, ?_, rfl, rfl, rfl, rfl, rfl⟩
  · intro i w hw
    simp only [List.get?_eq_getElem?, List.getElem?_map] at hw ⊢
    rw [hw]
    rfl
  · simp only [List.map_map]
    apply List.map_congr_left
    intro w _
    simp only [Function.comp, moveTo]
    split <;> rfl
  · intro hne
    show s.locations.map (moveTo rid latlng) = s.locations
    conv_rhs => rw [← List.map_id s.locations]
    apply List.map_congr_left
    intro w hw
    simp [moveTo, hne w hw]

/-- Witness for C5: after the sample session the start is put in relocate mode
and the map is clicked; the first entry moves, the second stays. -/
theorem relocate_click_witness :
    relocating (step plannedState .relocateStartClick) = some "1" ∧
    (handleMapClick (step plannedState .relocateStartClick)
        { lat := .fin 5, lng := .fin 6 }).1.locations.map (fun w => (w.id, w.lat, w.lng)) =
      [("1", .fin 5, .fin 6), ("2", .fin 6930000, .fin 79870000)] ∧
    (handleMapClick (step plannedState .relocateStartClick)
        { lat := .fin 5, lng := .fin 6 }).2 = [] :=
  ⟨by decide, by decide,
    (relocate_click (step plannedState .relocateStartClick) "1"
      { lat := .fin 5, lng := .fin 6 } (by decide)).2.2.2.2.2.2.2.2.2⟩

/-- C6: removing by id keeps exactly the entries with another id, unchanged
and in their order; when no entry has the id the state is unchanged; nothing
but the list is touched. -/
theorem removeLocation_keeps_others (s : AppState) (id : String) :
    (removeLocation s id).locations = s.locations.filter (fun w => decide (w.id ≠ id)) ∧
    (∀ w, w ∈ (removeLocation s id).locations ↔ w ∈ s.locations ∧ w.id ≠ id) ∧
    (removeLocation s id).locations.Sublist s.locations ∧
    ((∀ w ∈ s.locations, w.id ≠ id) → removeLocation s id = s) ∧
    removeLocation s id = { s with locations := (removeLocation s id).locations } := by
  refine ⟨?_, ?_, List.filter_sublist _, ?_, rfl⟩
  · simp only [removeLocation]
    congr 1
    funext w
    by_cases hw : w.id = id <;> simp [hw]
  · intro w
    simp [removeLocation, List.mem_filter]
  · intro hne
    have hf : s.locations.filter (fun l => l.id != id) = s.locations := by
      rw [List.filter_eq_self]
      intro w hw
      simpa using hne w hw
    simp only [removeLocation, hf]

/-! ## Optimization -/

/-- C7: with fewer than two entries `handleOptimize` issues no request, raises
the precondition alert and returns the state as it was (list, route and loading
flag included), whatever the backend would have answered. -/
theorem handleOptimize_precondition (s : AppState) (o : OptimizeOutcome)
    (h : s.locations.length < 2) :
    handleOptimize s = (s, [Effect.alert "Add at least a start point and one destination!"]) ∧
    optimize s o = (s, [Effect.alert "Add at least a start point and one destination!"]) ∧
    (∀ mode locs, Effect.postOptimize mode locs ∉ (handleOptimize s).2) ∧
    (handleOptimize s).1.locations = s.locations ∧
    (handleOptimize s).1.route = s.route ∧
    (handleOptimize s).1.loading = s.loading := by
  have hs : handleOptimize s =
      (s, [Effect.alert "Add at least a start point and one destination!"]) := by
    simp [handleOptimize, h]
  refine ⟨hs, ?_, ?_, ?_, ?_, ?_⟩
  · simp [optimize, h, hs]
  · intro mode locs
    simp [hs]
  · rw [hs]
  · rw [hs]
  · rw [hs]

/-- Witness for C7: a single stop in the list. -/
theorem handleOptimize_precondition_witness :
    (run AppState.init (sampleTrace.take 2)).locations.length = 1 ∧
    (handleOptimize (run AppState.init (sampleTrace.take 2))).2 =
      [Effect.alert "Add at least a start point and one destination!"] :=
  ⟨by decide,
    congrArg Prod.snd (handleOptimize_precondition (run AppState.init (sampleTrace.take 2))
      .rejected (by decide)).1⟩

/-- C8: with at least two entries the request goes out, and when it is
rejected the failure alert is raised while list and route stay exactly as they
were, also when other events changed the state while the request was in
flight; whatever the outcome, list and route are either both kept or both
replaced by the response. -/
theorem optimize_failure_keeps_store (s : AppState) (h : 2 ≤ s.locations.length) :
    (handleOptimize s).2 = [Effect.postOptimize s.activeTab s.locations] ∧
    (optimize s .rejected).1.locations = s.locations ∧
    (optimize s .rejected).1.route = s.route ∧
    Effect.alert "Backend error!" ∈ (optimize s .rejected).2 ∧
    (∀ cur : AppState,
      handleOptimizeResume cur .rejected =
        ({ cur with loading := false }, [Effect.alert "Backend error!"])) ∧
    (∀ o : OptimizeOutcome,
      ((optimize s o).1.locations = s.locations ∧ (optimize s o).1.route = s.route ∧
        Effect.alert "Backend error!" ∈ (optimize s o).2) ∨
      ∃ d, o = .resolved (some d) ∧ (optimize s o).1.locations = d.optimized_stops ∧
        (optimize s o).1.route = d.route_shape) := by
  have hlt : ¬ s.locations.length < 2 := by omega
  refine ⟨by simp [handleOptimize, hlt], by simp [optimize, handleOptimize,
    handleOptimizeResume, hlt], by simp [optimize, handleOptimize, handleOptimizeResume, hlt],
    by simp [optimize, handleOptimize, handleOptimizeResume, hlt], fun _ => rfl, ?_⟩
  intro o
  match o with
  | .rejected => left; simp [optimize, handleOptimize, handleOptimizeResume, hlt]
  | .resolved none => left; simp [optimize, handleOptimize, handleOptimizeResume, hlt]
  | .resolved (some d) =>
    right
    exact ⟨d, rfl, by simp [optimize, handleOptimize, handleOptimizeResume, hlt]⟩

/-- Witness for C8: the two stops of the sample session, before optimization,
with the request rejected. -/
theorem optimize_failure_keeps_store_witness :
    2 ≤ (run AppState.init (sampleTrace.take 4)).locations.length ∧
    (optimize (run AppState.init (sampleTrace.take 4)) .rejected).1.locations =
      (run AppState.init (sampleTrace.take 4)).locations ∧
    (optimize (run AppState.init (sampleTrace.take 4)) .rejected).1.route = [] :=
  ⟨by decide,
    (optimize_failure_keeps_store (run AppState.init (sampleTrace.take 4)) (by decide)).2.1,
    (optimize_failure_keeps_store (run AppState.init (sampleTrace.take 4))
      (by decide)).2.2.1.trans (by decide)⟩

/-- C9: on a successful response the list becomes exactly `optimized_stops`
and the route exactly `route_shape`, from whatever store holds at least two
entries (and from whatever state is current when the response arrives); a
second optimization answered by the same response leaves the state reached by
the first. -/
theorem optimize_success_idempotent (s : AppState) (d : OptimizeResponse)
    (h : 2 ≤ s.locations.length) :
    (optimize s (.resolved (some d))).1.locations = d.optimized_stops ∧
    (optimize s (.resolved (some d))).1.route = d.route_shape ∧
    (∀ s2 : AppState, 2 ≤ s2.locations.length →
      (optimize s2 (.resolved (some d))).1.locations =
        (optimize s (.resolved (some d))).1.locations ∧
      (optimize s2 (.resolved (some d))).1.route =
        (optimize s (.resolved (some d))).1.route) ∧
    (∀ cur : AppState,
      (handleOptimizeResume cur (.resolved (some d))).1 =
        { cur with route := d.route_shape, locations := d.optimized_stops, loading := false }) ∧
    (optimize (optimize s (.resolved (some d))).1 (.resolved (some d))).1 =
      (optimize s (.resolved (some d))).1 := by
  have hlt : ¬ s.locations.length < 2 := by omega
  have hs : (optimize s (.resolved (some d))).1 =
      { s with route := d.route_shape, locations := d.optimized_stops, loading := false } := by
    simp [optimize, handleOptimize, handleOptimizeResume, hlt]
  refine ⟨by rw [hs], by rw [hs], ?_, fun _ => rfl, ?_⟩
  · intro s2 h2
    have hlt2 : ¬ s2.locations.length < 2 := by omega
    rw [hs]
    simp [optimize, handleOptimize, handleOptimizeResume, hlt2]
  · rw [hs]
    by_cases hd : d.optimized_stops.length < 2
    · simp [optimize, handleOptimize, hd]
    · simp [optimize, handleOptimize, handleOptimizeResume, hd]

/-- Witness for C9: the sample response applied to the two stops of the sample
session. -/
theorem optimize_success_idempotent_witness :
    2 ≤ (run AppState.init (sampleTrace.take 4)).locations.length ∧
    (optimize (run AppState.init (sampleTrace.take 4))
      (.resolved (some sampleResponse))).1.locations = sampleResponse.optimized_stops ∧
    (optimize (run AppState.init (sampleTrace.take 4))
      (.resolved (some sampleResponse))).1.route = sampleResponse.route_shape :=
  ⟨by decide,
    (optimize_success_idempotent (run AppState.init (sampleTrace.take 4)) sampleResponse
      (by decide)).1,
    (optimize_success_idempotent (run AppState.init (sampleTrace.take 4)) sampleResponse
      (by decide)).2.1⟩

/-- Every event keeps the mode cell or sets it to one of the two tab names. -/
theorem step_activeTab (s : AppState) (e : Event) :
    (step s e).activeTab = s.activeTab ∨ (step s e).activeTab = "daily" ∨
      (step s e).activeTab = "tourist" := by
  cases e with
  | tabDaily => exact Or.inr (Or.inl rfl)
  | tabTourist => exact Or.inr (Or.inr rfl)
  | mapClick latlng =>
    left
    simp only [step, handleMapClick]
    split <;> rfl
  | editName v => left; simp only [step]; split <;> rfl
  | editOpen v => left; simp only [step]; split <;> rfl
  | editClose v => left; simp only [step]; split <;> rfl
  | confirmAdd now =>
    left
    simp only [step, confirmAddPoint]
    split
    · split <;> rfl
    · rfl
  | relocateStartClick => left; simp only [step]; split <;> rfl
  | removeClick i => left; simp only [step]; split <;> rfl
  | setAsStartClick i =>
    left
    simp only [step, setAsStartClick]
    split
    · split <;> rfl
    · rfl
  | optimizeClick =>
    left
    simp only [step, handleOptimize]
    split
    · rfl
    · split <;> rfl
  | optimizeSettled o =>
    left
    simp only [step]
    split
    · cases o with
      | rejected => rfl
      | resolved data => cases data <;> rfl
    · rfl

/-- In every state reached from a state whose mode is a tab name, the mode is
a tab name. -/
theorem run_activeTab : ∀ (tr : List Event) (s : AppState),
    (s.activeTab = "daily" ∨ s.activeTab = "tourist") →
    ((run s tr).activeTab = "daily" ∨ (run s tr).activeTab = "tourist") := by
  intro tr
  induction tr with
  | nil => intro s h; exact h
  | cons e tr ih =>
    intro s h
    apply ih (step s e)
    rcases step_activeTab s e with h1 | h1
    · rw [h1]; exact h
    · exact h1

/-- C10 (counterexample): the request sent for the two stops of the sample
session carries the mode "daily", and "tourist" after a click on the other
tab: neither "dailyPlanner" nor "touristMode". -/
theorem request_mode_is_tab_name :
    (handleOptimize (run AppState.init (sampleTrace.take 4))).2 =
      [Effect.postOptimize "daily" (run AppState.init (sampleTrace.take 4)).locations] ∧
    (handleOptimize (run AppState.init (sampleTrace.take 4 ++ [.tabTourist]))).2 =
      [Effect.postOptimize "tourist" (run AppState.init (sampleTrace.take 4)).locations] ∧
    "daily" ≠ "dailyPlanner" ∧ "daily" ≠ "touristMode" ∧
    "tourist" ≠ "dailyPlanner" ∧ "tourist" ≠ "touristMode" ∧
    ¬ ∃ locs, (handleOptimize (run AppState.init (sampleTrace.take 4))).2 =
        [Effect.postOptimize "dailyPlanner" locs] ∨
      (handleOptimize (run AppState.init (sampleTrace.take 4))).2 =
        [Effect.postOptimize "touristMode" locs] := by
  refine ⟨by decide, by decide, by decide, by decide, by decide, by decide, ?_⟩
  have hreq : (handleOptimize (run AppState.init (sampleTrace.take 4))).2 =
      [Effect.postOptimize "daily" (run AppState.init (sampleTrace.take 4)).locations] := by
    decide
  rintro ⟨locs, h1 | h1⟩
  · rw [hreq] at h1
    simp at h1
  · rw [hreq] at h1
    simp at h1

/-- C10 (amended): in every state reached from the initial state by any
sequence of events that holds at least two entries, the request `handleOptimize`
sends has mode "daily" or "tourist" and carries the full current list in
order. -/
theorem request_carries_mode_and_list (tr : List Event)
    (h : 2 ≤ (run AppState.init tr).locations.length) :
    ∃ mode, (mode = "daily" ∨ mode = "tourist") ∧
      (handleOptimize (run AppState.init tr)).2 =
        [Effect.postOptimize mode (run AppState.init tr).locations] := by
  have hlt : ¬ (run AppState.init tr).locations.length < 2 := by omega
  refine ⟨(run AppState.init tr).activeTab, run_activeTab tr AppState.init (Or.inl rfl), ?_⟩
  simp [handleOptimize, hlt]

/-- Witness for C10: the sample session with a switch to the tourist tab
before the second stop is confirmed. -/
theorem request_carries_mode_and_list_witness :
    2 ≤ (run AppState.init (.tabTourist :: sampleTrace.take 4)).locations.length ∧
    ∃ mode, (mode = "daily" ∨ mode = "tourist") ∧
      (handleOptimize (run AppState.init (.tabTourist :: sampleTrace.take 4))).2 =
        [Effect.postOptimize mode
          (run AppState.init (.tabTourist :: sampleTrace.take 4)).locations] :=
  ⟨by decide, request_carries_mode_and_list (.tabTourist :: sampleTrace.take 4) (by decide)⟩

/-! ## Reverse geocoding, search and the SOS flow -/

/-- Reading a field with `||` in front of a first-truthy search is the first-truthy
search over the longer list. -/
theorem jsOr_eq (x : Option String) (rest : String) (l : List (Option String)) :
    jsOr x (((l.filterMap id).find? (fun v => v != "")).getD rest) =
      ((((x :: l).filterMap id).find? (fun v => v != "")).getD rest) := by
  cases x with
  | none => rfl
  | some v =>
    have hl : (some v :: l).filterMap id = v :: l.filterMap id := rfl
    rw [hl]
    by_cases hv : v = ""
    · have hb : (v != "") = false := by simp [hv]
      simp only [jsOr, hv, List.find?, hb, if_true]
      simp
    · have hb : (v != "") = true := by simp [hv]
      simp only [jsOr, hv, List.find?, hb, if_false, Option.getD_some]

/-- C11: the label set from a reverse-geocoding outcome is the first present, non-empty
field of the address in the order amenity, shop, tourism, building, road, suburb, and
"New Stop" when there is none, when the body or the address is missing, or when the call
is rejected; the sample address with a shop and a road gives "ABC Mart". -/
theorem resolvedLabel_priority (addr : Address) :
    resolvedLabel (.resolved (some { address := some addr })) =
      ((([addr.amenity, addr.shop, addr.tourism, addr.building, addr.road,
          addr.suburb].filterMap id).find? (fun v => v != "")).getD "New Stop") ∧
    resolvedLabel .rejected = "New Stop" ∧
    resolvedLabel (.resolved none) = "New Stop" ∧
    resolvedLabel (.resolved (some { address := none })) = "New Stop" ∧
    resolvedLabel (.resolved (some { address := some sampleAddress })) = "ABC Mart" ∧
    (∀ (s : AppState) (o : GeocodeOutcome),
      (handleMapClickResume s o).newName = resolvedLabel o) := by
  refine ⟨?_, rfl, rfl, rfl, by decide, fun _ _ => rfl⟩
  show smartName addr = _
  unfold smartName
  rw [← jsOr_eq, ← jsOr_eq, ← jsOr_eq, ← jsOr_eq, ← jsOr_eq, ← jsOr_eq]
  simp


/-- No event of `Event` changes the search query. -/
theorem step_searchQuery (s : AppState) (e : Event) :
    (step s e).searchQuery = s.searchQuery := by
  cases e with
  | tabDaily => rfl
  | tabTourist => rfl
  | mapClick latlng =>
    simp only [step, handleMapClick]
    split <;> rfl
  | editName v => simp only [step]; split <;> rfl
  | editOpen v => simp only [step]; split <;> rfl
  | editClose v => simp only [step]; split <;> rfl
  | confirmAdd now =>
    simp only [step, confirmAddPoint]
    split
    · split <;> rfl
    · rfl
  | relocateStartClick => simp only [step]; split <;> rfl
  | removeClick i => simp only [step]; split <;> rfl
  | setAsStartClick i =>
    simp only [step, setAsStartClick]
    split
    · split <;> rfl
    · rfl
  | optimizeClick =>
    simp only [step, handleOptimize]
    split
    · rfl
    · split <;> rfl
  | optimizeSettled o =>
    simp only [step]
    split
    · cases o with
      | rejected => rfl
      | resolved data => cases data <;> rfl
    · rfl

/-- An event of `Event` acts on the component state as `step` does and leaves the search
timer and logs alone. -/
theorem sessionStep_ui (pf : String → Num) (s : Session) (e : Event) :
    (sessionStep pf s (.ui e)).app = step s.app e ∧
    (sessionStep pf s (.ui e)).searchTimer = s.searchTimer ∧
    (sessionStep pf s (.ui e)).searchIssued = s.searchIssued ∧
    (sessionStep pf s (.ui e)).searchInFlight = s.searchInFlight := by
  cases e <;> exact ⟨rfl, rfl, rfl, rfl⟩

/-- The search effect establishes the timer part of the invariant. -/
theorem searchEffect_inv (s : Session) (h : ∀ q ∈ s.searchIssued, 3 ≤ jsLength q) :
    SearchInv (searchEffect s) := by
  unfold searchEffect
  split
  · exact ⟨fun q hq => by simp at hq, h⟩
  · rename_i hlen
    refine ⟨fun q hq => ?_, h⟩
    simp only [Option.some.injEq] at hq
    subst hq
    exact ⟨rfl, by omega⟩

/-- Every session event keeps the search invariant. -/
theorem sessionStep_inv (pf : String → Num) (s : Session) (e : SessionEvent)
    (h : SearchInv s) : SearchInv (sessionStep pf s e) := by
  obtain ⟨ht, hi⟩ := h
  cases e with
  | ui e =>
    obtain ⟨h1, h2, h3, _⟩ := sessionStep_ui pf s e
    refine ⟨fun q hq => ?_, fun q hq => ?_⟩
    · rw [h2] at hq
      rw [h1, step_searchQuery]
      exact ht q hq
    · rw [h3] at hq
      exact hi q hq
  | queryEdit v =>
    simp only [sessionStep, setQuery]
    split
    · exact ⟨ht, hi⟩
    · exact searchEffect_inv _ hi
  | debounceExpiry =>
    simp only [sessionStep, debounceFire]
    split
    · rename_i q hq
      refine ⟨fun q2 hq2 => by simp at hq2, fun q2 hq2 => ?_⟩
      rcases List.mem_append.1 hq2 with h1 | h1
      · exact hi q2 h1
      · have : q2 = q := by simpa using h1
        subst this
        exact (ht q2 hq).2
    · exact ⟨ht, hi⟩
  | searchSettled q o =>
    simp only [sessionStep]
    split
    · refine ⟨fun q2 hq2 => ?_, hi⟩
      have := ht q2 hq2
      cases o <;> exact this
    · exact ⟨ht, hi⟩
  | selectResult i =>
    simp only [sessionStep]
    split
    · split
      · rename_i hempty
        refine ⟨fun q hq => ?_, hi⟩
        have h1 := ht q hq
        rw [hempty] at h1
        have h2 := h1.2
        rw [h1.1] at h2
        simp [jsLength] at h2
      · exact searchEffect_inv _ hi
    · exact ⟨ht, hi⟩
  | geocodeSettled p o =>
    simp only [sessionStep]
    split
    · exact ⟨ht, hi⟩
    · exact ⟨ht, hi⟩

/-- Every sequence of session events keeps the search invariant. -/
theorem sessionRun_inv (pf : String → Num) : ∀ (tr : List SessionEvent) (s : Session),
    SearchInv s → SearchInv (sessionRun pf s tr) := by
  intro tr
  induction tr with
  | nil => intro s h; exact h
  | cons e tr ih => intro s h; exact ih _ (sessionStep_inv pf s e h)

/-- The search invariant holds after mount. -/
theorem searchInv_init : SearchInv Session.init :=
  ⟨fun q hq => by simp [Session.init] at hq, fun q hq => by simp [Session.init] at hq⟩


/-- C12 (counterexample): the answer for the older query "col", arriving after the
answer for the newer query "colo", replaces the candidates of "colo"; and the answer for
"col", arriving while the query "co" of length 2 is current, fills the candidate list
that the short query had emptied. -/
theorem stale_search_response_applied :
    (sessionRun sampleParseFloat Session.init (staleSearchTrace.take 5)).app.searchQuery = "colo" ∧
    (sessionRun sampleParseFloat Session.init (staleSearchTrace.take 5)).searchIssued =
      ["col", "colo"] ∧
    (sessionRun sampleParseFloat Session.init (staleSearchTrace.take 5)).app.searchResults =
      [placeFort] ∧
    (sessionRun sampleParseFloat Session.init staleSearchTrace).app.searchQuery = "colo" ∧
    (sessionRun sampleParseFloat Session.init staleSearchTrace).app.searchResults =
      [placeColpetty] ∧
    (sessionRun sampleParseFloat Session.init (shortQueryTrace.take 3)).app.searchResults = [] ∧
    (sessionRun sampleParseFloat Session.init shortQueryTrace).app.searchQuery = "co" ∧
    jsLength "co" = 2 ∧
    (sessionRun sampleParseFloat Session.init shortQueryTrace).app.searchResults =
      [placeColpetty] := by
  decide

/-- C12 (amended): in every state reached by any interleaving of session events, every
search request sent so far was for a query of length at least 3; while a shorter query
is current the debounce timer sends nothing; an edit to a shorter query empties the
candidate list, clears the timer and sends nothing; and the answer for any query in
flight replaces the candidate list with its candidates, whatever query is current. -/
theorem search_calls_and_responses (pf : String → Num) (tr : List SessionEvent) :
    (∀ q ∈ (sessionRun pf Session.init tr).searchIssued, 3 ≤ jsLength q) ∧
    (jsLength (sessionRun pf Session.init tr).app.searchQuery < 3 →
      (sessionStep pf (sessionRun pf Session.init tr) .debounceExpiry).searchIssued =
        (sessionRun pf Session.init tr).searchIssued) ∧
    (∀ v, v ≠ (sessionRun pf Session.init tr).app.searchQuery → jsLength v < 3 →
      (sessionStep pf (sessionRun pf Session.init tr) (.queryEdit v)).app.searchResults = [] ∧
      (sessionStep pf (sessionRun pf Session.init tr) (.queryEdit v)).searchTimer = none ∧
      (sessionStep pf (sessionRun pf Session.init tr) (.queryEdit v)).searchIssued =
        (sessionRun pf Session.init tr).searchIssued) ∧
    (∀ q data, q ∈ (sessionRun pf Session.init tr).searchInFlight →
      (sessionStep pf (sessionRun pf Session.init tr)
        (.searchSettled q (.resolved data))).app.searchResults = data) := by
  obtain ⟨ht, hi⟩ := sessionRun_inv pf tr Session.init searchInv_init
  refine ⟨hi, ?_, ?_, ?_⟩
  · intro hshort
    simp only [sessionStep, debounceFire]
    split
    · rename_i q hq
      have := ht q hq
      rw [← this.1] at hshort
      omega
    · rfl
  · intro v hv hlen
    simp [sessionStep, setQuery, hv, searchEffect, hlen]
  · intro q data hq
    simp [sessionStep, hq, searchResume]

/-- C13 (counterexample): the answer requested for a first click, arriving after a
second click has replaced the draft, renames the draft of the second click; and the
answer arriving after the draft was confirmed still changes the name cell. -/
theorem stale_geocode_response_applied :
    (sessionRun sampleParseFloat Session.init
      [.ui (.mapClick pointA), .ui (.mapClick pointB)]).app.newPoint = pointB ∧
    (sessionRun sampleParseFloat Session.init
      [.ui (.mapClick pointA), .ui (.mapClick pointB)]).app.newName = "Loading address..." ∧
    (sessionRun sampleParseFloat Session.init
      [.ui (.mapClick pointA), .ui (.mapClick pointB),
       .geocodeSettled pointA sampleAnswer]).app.newPoint = pointB ∧
    (sessionRun sampleParseFloat Session.init
      [.ui (.mapClick pointA), .ui (.mapClick pointB),
       .geocodeSettled pointA sampleAnswer]).app.newName = "ABC Mart" ∧
    draftPending (sessionRun sampleParseFloat Session.init
      [.ui (.mapClick pointA), .ui (.confirmAdd 1)]).app = false ∧
    (sessionRun sampleParseFloat Session.init
      [.ui (.mapClick pointA), .ui (.confirmAdd 1)]).app.newName = "Loading address..." ∧
    (sessionRun sampleParseFloat Session.init
      [.ui (.mapClick pointA), .ui (.confirmAdd 1),
       .geocodeSettled pointA sampleAnswer]).app.newName = "ABC Mart" := by
  decide

/-- C13 (amended): in every state reached by any interleaving of session events, the
answer for any reverse-geocoding request in flight sets the draft name to the label
resolved from it and changes nothing else, whether or not the draft it was requested for
is still the pending one. -/
theorem geocode_response_sets_name (pf : String → Num) (tr : List SessionEvent)
    (p : LatLng) (o : GeocodeOutcome)
    (h : p ∈ (sessionRun pf Session.init tr).geocodeInFlight) :
    (sessionStep pf (sessionRun pf Session.init tr) (.geocodeSettled p o)).app =
      { (sessionRun pf Session.init tr).app with newName := resolvedLabel o } ∧
    (∀ s : AppState, handleMapClickResume s o = { s with newName := resolvedLabel o }) := by
  refine ⟨?_, fun _ => rfl⟩
  simp [sessionStep, h, handleMapClickResume]

/-- Witness for C13: two clicks, then the answer for the first. -/
theorem geocode_response_sets_name_witness :
    pointA ∈ (sessionRun sampleParseFloat Session.init
      [.ui (.mapClick pointA), .ui (.mapClick pointB)]).geocodeInFlight ∧
    (sessionStep sampleParseFloat (sessionRun sampleParseFloat Session.init
      [.ui (.mapClick pointA), .ui (.mapClick pointB)])
      (.geocodeSettled pointA sampleAnswer)).app.newName = "ABC Mart" :=
  ⟨by decide,
    (congrArg AppState.newName (geocode_response_sets_name sampleParseFloat
      [.ui (.mapClick pointA), .ui (.mapClick pointB)] pointA sampleAnswer (by decide)).1).trans
      (by decide)⟩

/-- C14: after a position is acquired, an empty providers list ends the flow with the
not-found error message, no provider stored, loading cleared and the error block shown,
never the success block; a non-empty list ends it with exactly the first min(3, n)
providers in the order of the response, no error message, loading cleared and the
success block shown. -/
theorem sos_response (s : SosState) (lat lng : Num) (ps : List Provider) :
    (ps = [] →
      (sosFlow true (.acquired lat lng) (.resolved (some ps)) s).errorMsg =
        "No service stations found within a 5km radius." ∧
      (sosFlow true (.acquired lat lng) (.resolved (some ps)) s).errorMsg ≠ "" ∧
      (sosFlow true (.acquired lat lng) (.resolved (some ps)) s).providers = [] ∧
      (sosFlow true (.acquired lat lng) (.resolved (some ps)) s).loading = false ∧
      showsError (sosFlow true (.acquired lat lng) (.resolved (some ps)) s) = true ∧
      showsSuccess (sosFlow true (.acquired lat lng) (.resolved (some ps)) s) = false) ∧
    (ps ≠ [] →
      (sosFlow true (.acquired lat lng) (.resolved (some ps)) s).providers = ps.take 3 ∧
      (sosFlow true (.acquired lat lng) (.resolved (some ps)) s).providers.length =
        min 3 ps.length ∧
      (sosFlow true (.acquired lat lng) (.resolved (some ps)) s).errorMsg = "" ∧
      (sosFlow true (.acquired lat lng) (.resolved (some ps)) s).loading = false ∧
      showsSuccess (sosFlow true (.acquired lat lng) (.resolved (some ps)) s) = true ∧
      showsError (sosFlow true (.acquired lat lng) (.resolved (some ps)) s) = false) := by
  constructor
  · intro h
    subst h
    simp [sosFlow, handleSOS, sosResume, showError, showsError, showsSuccess]
  · intro h
    have hlen : ps.length ≠ 0 := by
      intro h0
      exact h (List.length_eq_zero.1 h0)
    have hpos : 0 < ps.length := Nat.pos_of_ne_zero hlen
    simp [sosFlow, handleSOS, sosResume, showsError, showsSuccess, hlen, h]
    omega

end Pathfinder
